import Mathlib

/-!
Verification development for the simple_piano_rn audio engine.

The definitions below are a shallow embedding of the TypeScript sources:
  * src/utils/noteFrequencies.ts  (equal-temperament frequency table)
  * src/services/AudioService.ts  (voice manager / event bus / watchdog)

JavaScript numbers are modelled by `ℚ` where the code only ever adds,
multiplies and compares (timestamps, velocities), and by `ℝ` where the code
computes `Math.pow` (frequencies).  The `Map<NoteId, PlayingNote>` is
modelled as an association list in insertion order, which is exactly the
iteration order of a JS `Map`.  Opaque audio-node handles (oscillator and
gain nodes) are not observable by any claim; a voice instead carries a
`voiceId` freshly allocated at creation, which models object identity of the
oscillator/gain pair.  Effects that the claims observe (emitted events, the
fixed settle delay, console warnings of the watchdog and of a failed
oscillator stop) are reified as an `Action` trace returned by each call.
-/

namespace SimplePiano

/-- Note letter names, from `NoteName` in src/types/index.ts. -/
inductive NoteName
  | C | Cs | D | Ds | E | F | Fs | G | Gs | A | As | B
deriving DecidableEq

/-- `NOTE_TO_SEMITONE_OFFSET` from noteFrequencies.ts: semitones above C. -/
def NOTE_TO_SEMITONE_OFFSET : NoteName → ℤ
  | .C => 0
  | .Cs => 1
  | .D => 2
  | .Ds => 3
  | .E => 4
  | .F => 5
  | .Fs => 6
  | .G => 7
  | .Gs => 8
  | .A => 9
  | .As => 10
  | .B => 11

/-- `noteToMidiNumber(noteName, octave)` from noteFrequencies.ts:
`60 + offset + (octave - 4) * 12`. -/
def noteToMidiNumber (noteName : NoteName) (octave : ℤ) : ℤ :=
  60 + NOTE_TO_SEMITONE_OFFSET noteName + (octave - 4) * 12

/-- `SEMITONE_RATIO = Math.pow(2, 1/12)` from noteFrequencies.ts. -/
noncomputable def semitoneRatio : ℝ := (2 : ℝ) ^ ((1 : ℝ) / 12)

/-- `midiNumberToFrequency(midiNumber)` from noteFrequencies.ts:
`440 * SEMITONE_RATIO ** (midiNumber - 69)`. -/
noncomputable def midiNumberToFrequency (midiNumber : ℤ) : ℝ :=
  440 * semitoneRatio ^ (midiNumber - 69)

/-- `calculateNoteFrequency(noteName, octave)` from noteFrequencies.ts. -/
noncomputable def calculateNoteFrequency (noteName : NoteName) (octave : ℤ) : ℝ :=
  midiNumberToFrequency (noteToMidiNumber noteName octave)

/-- The 37 keys of the `PIANO_FREQUENCIES` record literal in
noteFrequencies.ts, in declaration order, each with the `(noteName, octave)`
argument pair of the `calculateNoteFrequency` call that initializes it.
(For each key the pair is exactly what `parseNoteId` would return.) -/
def NOTE_SPECS : List (String × NoteName × ℤ) :=
  [("C3", .C, 3), ("C#3", .Cs, 3), ("D3", .D, 3), ("D#3", .Ds, 3),
   ("E3", .E, 3), ("F3", .F, 3), ("F#3", .Fs, 3), ("G3", .G, 3),
   ("G#3", .Gs, 3), ("A3", .A, 3), ("A#3", .As, 3), ("B3", .B, 3),
   ("C4", .C, 4), ("C#4", .Cs, 4), ("D4", .D, 4), ("D#4", .Ds, 4),
   ("E4", .E, 4), ("F4", .F, 4), ("F#4", .Fs, 4), ("G4", .G, 4),
   ("G#4", .Gs, 4), ("A4", .A, 4), ("A#4", .As, 4), ("B4", .B, 4),
   ("C5", .C, 5), ("C#5", .Cs, 5), ("D5", .D, 5), ("D#5", .Ds, 5),
   ("E5", .E, 5), ("F5", .F, 5), ("F#5", .Fs, 5), ("G5", .G, 5),
   ("G#5", .Gs, 5), ("A5", .A, 5), ("A#5", .As, 5), ("B5", .B, 5),
   ("C6", .C, 6)]

/-- The key set of the `PIANO_FREQUENCIES` record. -/
def SUPPORTED_NOTE_IDS : List String := NOTE_SPECS.map (·.1)

/-- `isSupportedNote(noteId)` from noteFrequencies.ts:
`noteId in PIANO_FREQUENCIES`. -/
def isSupportedNote (noteId : String) : Bool :=
  SUPPORTED_NOTE_IDS.contains noteId

/-- The `PIANO_FREQUENCIES` record from noteFrequencies.ts as a function;
on the 37 declared keys it returns the recorded `calculateNoteFrequency`
value (and 0 on absent keys, where the record has no entry). -/
noncomputable def PIANO_FREQUENCIES (noteId : String) : ℝ :=
  match NOTE_SPECS.lookup noteId with
  | some p => calculateNoteFrequency p.1 p.2
  | none => 0

/-- The MIDI number of a supported noteId, i.e. `noteToMidiNumber` applied to
the `(noteName, octave)` pair recorded for that key (0 on absent keys). -/
def midiNumberOfNoteId (noteId : String) : ℤ :=
  match NOTE_SPECS.lookup noteId with
  | some p => noteToMidiNumber p.1 p.2
  | none => 0

/-- `AudioNodeState` from src/types/index.ts. -/
inductive AudioNodeState
  | idle | playing | stopping
deriving DecidableEq

/-- The state of the underlying `AudioContext` (Web Audio context states). -/
inductive ContextState
  | suspended | running | closed
deriving DecidableEq

/-- `ErrorType` from src/types/index.ts. -/
inductive ErrorType
  | AUDIO_INIT_FAILED | AUDIO_PLAYBACK_FAILED | RECORDING_FAILED
  | STORAGE_FAILED | PERMISSION_DENIED | UNKNOWN_ERROR
deriving DecidableEq

/-- `PlayingNote` from src/types/index.ts.  The opaque `source`/`gainNode`
handles are modelled by `voiceId`, a number freshly allocated per voice
(object identity of the oscillator/gain pair).  `startTime` is
`audioContext.currentTime` in seconds, as in `startNote`. -/
structure PlayingNote where
  noteId : String
  voiceId : Nat
  startTime : ℚ
  state : AudioNodeState
deriving DecidableEq

/-- Observable effects of one AudioService call: emitted events (timestamps
elided — no claim mentions them), the fixed settle delay of the
voice-replacement path, and console warnings. -/
inductive Action
  | emitNoteStart (noteId : String)
  | emitNoteEnd (noteId : String)
  | emitError (t : ErrorType)
  | sleepMs (ms : ℚ)
  | warnOscStopFailed (noteId : String)
  | warnStaleNote (noteId : String)
deriving DecidableEq

/-- The mutable fields of the `AudioService` singleton that the claims
observe.  `contextCreatedAt` is a model artifact: the wall-clock epoch
millisecond at which the `AudioContext` was created, so that audio-clock
second `t` corresponds to wall-clock time `contextCreatedAt + 1000 * t`. -/
structure AudioState where
  playingNotes : List (String × PlayingNote)
  isInit : Bool
  audioContext : Option ContextState
  lastCleanupTime : ℚ
  audioCurrentTime : ℚ
  contextCreatedAt : ℚ
  nextVoiceId : Nat
deriving DecidableEq

/-- `Map.get`. -/
def mapGet (m : List (String × PlayingNote)) (k : String) : Option PlayingNote :=
  m.lookup k

/-- `Map.delete` (on a map with unique keys, removing the key's entry). -/
def mapDelete (m : List (String × PlayingNote)) (k : String) :
    List (String × PlayingNote) :=
  m.filter (fun e => e.1 != k)

/-- `Map.set`: replace in place if the key is present, else append
(JS `Map` preserves insertion order). -/
def mapSet (m : List (String × PlayingNote)) (k : String) (v : PlayingNote) :
    List (String × PlayingNote) :=
  if m.any (fun e => e.1 == k) then
    m.map (fun e => if e.1 == k then (k, v) else e)
  else
    m ++ [(k, v)]

/-- Result of one `startNote`/`stopNote` call: the returned boolean, the
trace of observable effects, and the service state after the call. -/
structure StepResult where
  result : Bool
  acts : List Action
  state : AudioState
deriving DecidableEq

/-- Behaviour of the opaque `oscillator.stop()` call inside `stopNote`:
it succeeds; or it throws and the inner `catch` swallows the error
(`console.warn`); or an error escapes to the outer `catch` of `stopNote`
(e.g. the inner handler itself throws). -/
inductive StopErrMode
  | ok | innerStopError | outerError
deriving DecidableEq

/-- `maxConcurrentNotes` from `startNote` (AudioService.ts line 199). -/
def maxConcurrentNotes : Nat := 6

/-- `stopNote(noteId)` from AudioService.ts (lines 284-330).
Absent note or null context: return false, no event.  Voice already
`stopping`: return true, no event.  Otherwise mark the voice `stopping`,
attempt the oscillator stop (inner try/catch), delete the map entry, emit
`noteEnd`, return true; if an error escapes to the outer catch, the outer
handler force-deletes the entry, emits an `error` event and returns false. -/
def stopNote (s : AudioState) (noteId : String) (mode : StopErrMode) : StepResult :=
  match mapGet s.playingNotes noteId, s.audioContext with
  | some pn, some _ =>
    if pn.state = AudioNodeState.stopping then
      { result := true, acts := [], state := s }
    else
      let marked := mapSet s.playingNotes noteId { pn with state := .stopping }
      match mode with
      | .ok =>
        { result := true, acts := [.emitNoteEnd noteId],
          state := { s with playingNotes := mapDelete marked noteId } }
      | .innerStopError =>
        { result := true, acts := [.warnOscStopFailed noteId, .emitNoteEnd noteId],
          state := { s with playingNotes := mapDelete marked noteId } }
      | .outerError =>
        { result := false, acts := [.emitError .AUDIO_PLAYBACK_FAILED],
          state := { s with playingNotes := mapDelete marked noteId } }
  | _, _ => { result := false, acts := [], state := s }

/-- `startNote(noteId, velocity)` from AudioService.ts (lines 188-276).
Guards in source order: not initialized / null context (throws, caught by
the outer handler which emits an `error` event and returns false);
unsupported note (same); polyphony cap (silent false); closed context
(silent false).  Then, if the note is already live, stop it and sleep the
fixed 10 ms settle delay; finally allocate a fresh voice, record it
`playing`, emit `noteStart`, return true.  The gain-envelope scheduling
(ADSR ramps computed from `velocity`) acts only on the opaque audio nodes
and is not observable by any claim, so it is elided here. -/
def startNote (s : AudioState) (noteId : String) (velocity : ℚ) : StepResult :=
  if !s.isInit || s.audioContext.isNone then
    { result := false, acts := [.emitError .AUDIO_PLAYBACK_FAILED], state := s }
  else if !isSupportedNote noteId then
    { result := false, acts := [.emitError .AUDIO_PLAYBACK_FAILED], state := s }
  else if maxConcurrentNotes ≤ s.playingNotes.length then
    { result := false, acts := [], state := s }
  else if s.audioContext = some ContextState.closed then
    { result := false, acts := [], state := s }
  else
    let pre : StepResult :=
      if (mapGet s.playingNotes noteId).isSome then
        let r := stopNote s noteId .ok
        { r with acts := r.acts ++ [.sleepMs 10] }
      else
        { result := true, acts := [], state := s }
    let s1 := pre.state
    let pn : PlayingNote :=
      { noteId := noteId, voiceId := s1.nextVoiceId,
        startTime := s1.audioCurrentTime, state := .playing }
    { result := true,
      acts := pre.acts ++ [.emitNoteStart noteId],
      state := { s1 with
        playingNotes := mapSet s1.playingNotes noteId pn,
        nextVoiceId := s1.nextVoiceId + 1 } }

/-- `getPlayingNotes()` from AudioService.ts: the keys of the map. -/
def getPlayingNotes (s : AudioState) : List String :=
  s.playingNotes.map (·.1)

/-- `isNotePlaying(noteId)` from AudioService.ts:
`playingNotes.get(noteId)?.state === 'playing'`. -/
def isNotePlaying (s : AudioState) (noteId : String) : Bool :=
  match mapGet s.playingNotes noteId with
  | some pn => pn.state == AudioNodeState.playing
  | none => false

/-- `isReady()` from AudioService.ts. -/
def isReady (s : AudioState) : Bool :=
  s.isInit && s.audioContext.isSome

/-- `stopAllNotes()` from AudioService.ts: `stopNote` for every key of a
snapshot of the map (state effect only). -/
def stopAllNotes (s : AudioState) : AudioState :=
  (s.playingNotes.map (·.1)).foldl (fun st n => (stopNote st n .ok).state) s

/-- The 10 s staleness threshold of `performPeriodicCleanup` (ms). -/
def staleThresholdMs : ℚ := 10000

/-- The 30 s gate of `performPeriodicCleanup` (ms). -/
def cleanupGateMs : ℚ := 30000

/-- The staleness test of `performPeriodicCleanup` (line 527), verbatim:
`now - playingNote.startTime * 1000 > 10000`, where `now` is `Date.now()`
(epoch ms) and `startTime` is `audioContext.currentTime` (seconds since
context creation). -/
def isStaleNote (now : ℚ) (pn : PlayingNote) : Bool :=
  staleThresholdMs < now - pn.startTime * 1000

/-- The wall-clock age in milliseconds of a voice at wall-clock time `now`:
the voice started at audio-clock second `startTime`, i.e. at wall-clock
time `contextCreatedAt + startTime * 1000`. -/
def wallClockAgeMs (s : AudioState) (now : ℚ) (pn : PlayingNote) : ℚ :=
  now - (s.contextCreatedAt + pn.startTime * 1000)

/-- `performPeriodicCleanup()` from AudioService.ts (lines 515-552), called
with `now = Date.now()`: if more than 30 s have passed since the last pass,
collect the noteIds whose entry satisfies the staleness test, log one
warning per such note, attempt to stop its oscillator (errors swallowed),
and delete its entry; then record `lastCleanupTime = now`. -/
def performPeriodicCleanup (s : AudioState) (now : ℚ) : List Action × AudioState :=
  if cleanupGateMs < now - s.lastCleanupTime then
    ((s.playingNotes.filter (fun e => isStaleNote now e.2)).map
       (fun e => Action.warnStaleNote e.1),
     { s with
       playingNotes := s.playingNotes.filter (fun e => !(isStaleNote now e.2)),
       lastCleanupTime := now })
  else
    ([], s)

/-- `destroy()` from AudioService.ts: stop every note, close and null the
context, clear the map, reset the flags. -/
def destroyService (s : AudioState) : AudioState :=
  let s1 := stopAllNotes s
  { s1 with playingNotes := [], isInit := false, audioContext := none }

/-- One externally triggered operation on the service. -/
inductive Op
  | start (noteId : String) (velocity : ℚ)
  | stop (noteId : String) (mode : StopErrMode)
  | stopAll
  | cleanup (now : ℚ)
  | destroy
deriving DecidableEq

/-- Apply one operation (state effect only). -/
def applyOp (s : AudioState) : Op → AudioState
  | .start n v => (startNote s n v).state
  | .stop n m => (stopNote s n m).state
  | .stopAll => stopAllNotes s
  | .cleanup now => (performPeriodicCleanup s now).2
  | .destroy => destroyService s

/-- The service state right after a successful `initialize()`:
empty map, running context. -/
def initialAudioState : AudioState :=
  { playingNotes := [], isInit := true, audioContext := some .running,
    lastCleanupTime := 0, audioCurrentTime := 0, contextCreatedAt := 0,
    nextVoiceId := 0 }

/-- Run a sequence of operations from the freshly initialized state. -/
def runOps (ops : List Op) : AudioState :=
  ops.foldl applyOp initialAudioState

/-- Every map entry is a voice in state `playing`. -/
def allVoicesPlaying (s : AudioState) : Prop :=
  ∀ e ∈ s.playingNotes, e.2.state = AudioNodeState.playing

/-- A subscribed listener, modelled as a function that either returns or
throws (`Except.error`). -/
def runListenerCaught {α : Type} (l : α → Except String Unit) (x : α) : Bool :=
  match l x with
  | .ok _ => true
  | .error _ => false

/-- `emit(eventType, eventData)` from AudioService.ts (lines 484-498):
iterate the listener collection for the topic, invoking each listener
inside its own try/catch (a throwing listener is logged and delivery
continues).  Returns the per-listener delivery outcome; that the return
type is not `Except` reflects that `emit` itself never raises. -/
def emitToListeners {α : Type} (ls : List (α → Except String Unit)) (x : α) :
    List Bool :=
  match ls with
  | [] => []
  | l :: rest =>
    (match l x with
     | .ok _ => true
     | .error _ => false) :: emitToListeners rest x

/-- A sample voice for the note C4, in state `playing`. -/
def exVoiceC4 : PlayingNote :=
  { noteId := "C4", voiceId := 0, startTime := 0, state := .playing }

/-- An initialized service with exactly one live voice, for C4. -/
def exStateOneVoice : AudioState :=
  { initialAudioState with playingNotes := [("C4", exVoiceC4)], nextVoiceId := 1 }

/-- A sample voice in state `playing` for a given note and voice number. -/
def mkVoice (noteId : String) (voiceId : Nat) : PlayingNote :=
  { noteId := noteId, voiceId := voiceId, startTime := 0, state := .playing }

/-- An initialized service with six live voices (the concurrency cap). -/
def exStateSixVoices : AudioState :=
  { initialAudioState with
    playingNotes :=
      [("C3", mkVoice "C3" 0), ("D3", mkVoice "D3" 1), ("E3", mkVoice "E3" 2),
       ("F3", mkVoice "F3" 3), ("G3", mkVoice "G3" 4), ("A3", mkVoice "A3" 5)],
    nextVoiceId := 6 }

/-- A service that was never initialized (no context). -/
def exStateUninit : AudioState :=
  { playingNotes := [], isInit := false, audioContext := none,
    lastCleanupTime := 0, audioCurrentTime := 0, contextCreatedAt := 0,
    nextVoiceId := 0 }

/-- An initialized service whose context has been closed. -/
def exStateClosed : AudioState :=
  { initialAudioState with audioContext := some .closed }

/-- A realistic state exhibiting the watchdog clock-domain mismatch: the
context was created at epoch millisecond 1760000000000 and a C4 voice
started one audio-clock second later (`startTime = 1`). -/
def exStaleBugState : AudioState :=
  { playingNotes := [("C4", { noteId := "C4", voiceId := 0, startTime := 1,
                              state := .playing })],
    isInit := true, audioContext := some .running,
    lastCleanupTime := 0, audioCurrentTime := 2,
    contextCreatedAt := 1760000000000, nextVoiceId := 1 }

/-- A listener that always throws. -/
def exFailListener : Nat → Except String Unit := fun _ => .error "listener failed"

/-- A listener that always returns. -/
def exOkListener : Nat → Except String Unit := fun _ => .ok ()

/-! ## Association-list (JS `Map`) lemmas -/

theorem lookup_of_contains_keys {β : Type} (l : List (String × β)) (k : String)
    (h : (l.map (·.1)).contains k = true) : ∃ p, l.lookup k = some p := by
  induction l with
  | nil => simp at h
  | cons e rest ih =>
    by_cases hk : k = e.1
    · have hb : (k == e.1) = true := beq_iff_eq.mpr hk
      exact ⟨e.2, by simp [List.lookup, hb]⟩
    · have hb : (k == e.1) = false := beq_eq_false_iff_ne.mpr hk
      have h' : (rest.map (·.1)).contains k = true := by
        simp only [List.map_cons, List.contains_cons] at h
        rcases Bool.or_eq_true_iff.mp h with h1 | h1
        · exact absurd (beq_iff_eq.mp h1) hk
        · exact h1
      rcases ih h' with ⟨p, hp⟩
      exact ⟨p, by simp [List.lookup, hb, hp]⟩

theorem lookup_mem {β : Type} (l : List (String × β)) (k : String) (v : β)
    (h : l.lookup k = some v) : (k, v) ∈ l := by
  induction l with
  | nil => simp [List.lookup] at h
  | cons e rest ih =>
    by_cases hk : k = e.1
    · have hb : (k == e.1) = true := beq_iff_eq.mpr hk
      simp [List.lookup, hb] at h
      have he : (k, v) = e := by rw [hk, ← h]
      rw [he]
      exact List.mem_cons_self _ _
    · have hb : (k == e.1) = false := beq_eq_false_iff_ne.mpr hk
      simp [List.lookup, hb] at h
      exact List.mem_cons_of_mem _ (ih h)

theorem mapGet_mapDelete_self (m : List (String × PlayingNote)) (k : String) :
    mapGet (mapDelete m k) k = none := by
  induction m with
  | nil => rfl
  | cons e rest ih =>
    by_cases hk : e.1 = k
    · have hb : (e.1 != k) = false := by
        simp [hk]
      simpa [mapDelete, List.filter_cons, hb] using ih
    · have hb : (e.1 != k) = true := by
        simp [hk]
      have hb2 : (k == e.1) = false := beq_eq_false_iff_ne.mpr (Ne.symm hk)
      simpa [mapDelete, mapGet, List.filter_cons, List.lookup, hb, hb2] using ih

theorem mem_mapDelete (m : List (String × PlayingNote)) (k : String)
    (e : String × PlayingNote) (h : e ∈ mapDelete m k) : e ∈ m :=
  List.mem_of_mem_filter h

theorem mem_mapSet (m : List (String × PlayingNote)) (k : String)
    (v : PlayingNote) (e : String × PlayingNote) (h : e ∈ mapSet m k v) :
    e = (k, v) ∨ e ∈ m := by
  unfold mapSet at h
  by_cases hc : m.any (fun e => e.1 == k) = true
  · rw [if_pos hc] at h
    rcases List.mem_map.mp h with ⟨e0, he0, heq⟩
    by_cases hk : e0.1 = k
    · left
      rw [← heq]
      simp [hk]
    · right
      rw [← heq]
      simpa [hk] using he0
  · rw [if_neg hc] at h
    rcases List.mem_append.mp h with h1 | h1
    · exact Or.inr h1
    · exact Or.inl (by simpa using h1)

theorem filter_map_replace (m : List (String × PlayingNote)) (k : String)
    (v : PlayingNote) :
    (m.map (fun e => if e.1 == k then (k, v) else e)).filter
        (fun e => e.1 != k) =
      m.filter (fun e => e.1 != k) := by
  induction m with
  | nil => rfl
  | cons e rest ih =>
    by_cases hk : e.1 = k
    · have h0 : (e.1 == k) = true := beq_iff_eq.mpr hk
      have h1 : (e.1 != k) = false := by simp [hk]
      have h2 : (((k, v) : String × PlayingNote).1 != k) = false := by simp
      simp only [List.map_cons, List.filter_cons, h0, if_true, h1, h2,
        Bool.false_eq_true, if_false]
      exact ih
    · have h0 : (e.1 == k) = false := beq_eq_false_iff_ne.mpr hk
      have h1 : (e.1 != k) = true := by simp [hk]
      simp only [List.map_cons, List.filter_cons, h0, h1, Bool.false_eq_true,
        if_false, if_true]
      rw [ih]

theorem mapDelete_mapSet_self (m : List (String × PlayingNote)) (k : String)
    (v : PlayingNote) : mapDelete (mapSet m k v) k = mapDelete m k := by
  unfold mapSet
  by_cases hc : m.any (fun e => e.1 == k) = true
  · rw [if_pos hc]
    exact filter_map_replace m k v
  · rw [if_neg hc]
    unfold mapDelete
    simp [List.filter_append, List.filter_cons]

theorem mapGet_append_of_none (m l : List (String × PlayingNote)) (k : String)
    (h : mapGet m k = none) : mapGet (m ++ l) k = mapGet l k := by
  induction m with
  | nil => rfl
  | cons e rest ih =>
    by_cases hk : k = e.1
    · have hb : (k == e.1) = true := beq_iff_eq.mpr hk
      simp [mapGet, List.lookup, hb] at h
    · have hb : (k == e.1) = false := beq_eq_false_iff_ne.mpr hk
      simp only [mapGet, List.lookup, List.cons_append, hb] at h ⊢
      exact ih h

theorem filter_key_mapDelete (m : List (String × PlayingNote)) (k : String) :
    (mapDelete m k).filter (fun e => e.1 == k) = [] := by
  induction m with
  | nil => rfl
  | cons e rest ih =>
    by_cases hk : e.1 = k
    · have hb : (e.1 != k) = false := by simp [hk]
      simpa [mapDelete, List.filter_cons, hb] using ih
    · have hb : (e.1 != k) = true := by simp [hk]
      have hb2 : (e.1 == k) = false := beq_eq_false_iff_ne.mpr hk
      simpa [mapDelete, List.filter_cons, hb, hb2] using ih

/-! ## Equal-temperament lemmas -/

theorem semitoneRatio_zpow (k : ℤ) :
    semitoneRatio ^ k = (2 : ℝ) ^ ((k : ℝ) / 12) := by
  rw [← Real.rpow_intCast semitoneRatio k]
  unfold semitoneRatio
  rw [← Real.rpow_mul (by norm_num : (0:ℝ) ≤ 2)]
  congr 1
  ring

theorem midiNumberToFrequency_formula (m : ℤ) :
    midiNumberToFrequency m = 440 * (2 : ℝ) ^ (((m : ℝ) - 69) / 12) := by
  unfold midiNumberToFrequency
  rw [semitoneRatio_zpow (m - 69)]
  congr 1
  push_cast
  ring

/-! ## Claim C6: the frequency table implements equal temperament -/

/-- Claim C6: for every noteId in the supported 37-note range C3..C6, the
frequency table value equals `440 * 2 ^ ((midiNumber(noteId) - 69) / 12)`;
in particular `frequency("A4") = 440` exactly, and `frequency("C4")` is
within `1/1000` of `261.626`. -/
theorem piano_frequencies_equal_temperament (noteId : String)
    (hsup : isSupportedNote noteId = true) :
    PIANO_FREQUENCIES noteId =
      440 * (2 : ℝ) ^ (((midiNumberOfNoteId noteId : ℝ) - 69) / 12) ∧
    PIANO_FREQUENCIES "A4" = 440 ∧
    |PIANO_FREQUENCIES "C4" - 261.626| < 1 / 1000 := by
  refine ⟨?_, ?_, ?_⟩
  · rcases lookup_of_contains_keys NOTE_SPECS noteId hsup with ⟨p, hp⟩
    unfold PIANO_FREQUENCIES midiNumberOfNoteId
    rw [hp]
    unfold calculateNoteFrequency
    exact midiNumberToFrequency_formula _
  · have hA : NOTE_SPECS.lookup "A4" = some (NoteName.A, 4) := by decide
    unfold PIANO_FREQUENCIES
    rw [hA]
    show calculateNoteFrequency NoteName.A 4 = 440
    unfold calculateNoteFrequency
    have hm : noteToMidiNumber NoteName.A 4 = 69 := by decide
    rw [hm]
    unfold midiNumberToFrequency
    norm_num
  · have hC : NOTE_SPECS.lookup "C4" = some (NoteName.C, 4) := by decide
    have h1 : PIANO_FREQUENCIES "C4" = midiNumberToFrequency 60 := by
      unfold PIANO_FREQUENCIES
      rw [hC]
      show calculateNoteFrequency NoteName.C 4 = midiNumberToFrequency 60
      unfold calculateNoteFrequency
      norm_num [noteToMidiNumber, NOTE_TO_SEMITONE_OFFSET]
    have h2 : midiNumberToFrequency 60 = 440 * (2:ℝ) ^ (-(3:ℝ)/4) := by
      rw [midiNumberToFrequency_formula]
      congr 1
      norm_num
    have hx0 : (0:ℝ) ≤ (2:ℝ) ^ ((1:ℝ)/4) := Real.rpow_nonneg (by norm_num) _
    have hx4 : ((2:ℝ) ^ ((1:ℝ)/4)) ^ (4:ℕ) = 2 := by
      rw [← Real.rpow_natCast ((2:ℝ) ^ ((1:ℝ)/4)) 4,
          ← Real.rpow_mul (by norm_num : (0:ℝ) ≤ 2)]
      push_cast
      rw [show (1:ℝ)/4 * 4 = 1 by ring, Real.rpow_one]
    have hlow : (1.189207 : ℝ) < (2:ℝ) ^ ((1:ℝ)/4) := by
      apply lt_of_pow_lt_pow_left₀ 4 hx0
      rw [hx4]
      norm_num
    have hhigh : (2:ℝ) ^ ((1:ℝ)/4) < 1.189208 := by
      apply lt_of_pow_lt_pow_left₀ 4 (by norm_num : (0:ℝ) ≤ (1.189208:ℝ))
      rw [hx4]
      norm_num
    have h3 : (2:ℝ) ^ (-(3:ℝ)/4) = (2:ℝ) ^ ((1:ℝ)/4) / 2 := by
      rw [show -(3:ℝ)/4 = 1/4 + (-1) by norm_num,
          Real.rpow_add (by norm_num : (0:ℝ) < 2),
          show (-1 : ℝ) = -(1:ℝ) by norm_num,
          Real.rpow_neg (by norm_num : (0:ℝ) ≤ 2), Real.rpow_one]
      ring
    rw [h1, h2, h3, abs_lt]
    constructor
    · linarith
    · linarith

/-- Witness for `piano_frequencies_equal_temperament` at the concrete
supported noteId A4. -/
theorem piano_frequencies_equal_temperament_witness :
    isSupportedNote "A4" = true ∧
    PIANO_FREQUENCIES "A4" =
      440 * (2 : ℝ) ^ (((midiNumberOfNoteId "A4" : ℝ) - 69) / 12) :=
  ⟨by decide, (piano_frequencies_equal_temperament "A4" (by decide)).1⟩

/-! ## Claim C1: admission control at the polyphony cap -/

/-- Claim C1: for every state with 6 live voices in the playing-notes map,
`startNote` with a noteId not already in the map returns false, emits no
`noteStart` event, and leaves the map (and hence `getPlayingNotes`)
unchanged. -/
theorem startNote_at_cap_rejects (s : AudioState) (noteId : String)
    (velocity : ℚ)
    (hfull : s.playingNotes.length = 6)
    (habsent : mapGet s.playingNotes noteId = none) :
    (startNote s noteId velocity).result = false ∧
    (∀ a ∈ (startNote s noteId velocity).acts,
      ∀ n, a ≠ Action.emitNoteStart n) ∧
    (startNote s noteId velocity).state.playingNotes = s.playingNotes ∧
    getPlayingNotes (startNote s noteId velocity).state = getPlayingNotes s := by
  have hcap : maxConcurrentNotes ≤ s.playingNotes.length := by
    rw [hfull]
    decide
  unfold startNote
  by_cases h1 : (!s.isInit || s.audioContext.isNone) = true
  · rw [if_pos h1]
    refine ⟨rfl, ?_, rfl, rfl⟩
    intro a ha n
    simp only [List.mem_singleton] at ha
    rw [ha]
    simp
  · rw [if_neg h1]
    by_cases h2 : (!isSupportedNote noteId) = true
    · rw [if_pos h2]
      refine ⟨rfl, ?_, rfl, rfl⟩
      intro a ha n
      simp only [List.mem_singleton] at ha
      rw [ha]
      simp
    · rw [if_neg h2, if_pos hcap]
      refine ⟨rfl, ?_, rfl, rfl⟩
      intro a ha n
      exact absurd ha (List.not_mem_nil a)

/-- Witness for `startNote_at_cap_rejects` at a concrete six-voice state. -/
theorem startNote_at_cap_rejects_witness :
    exStateSixVoices.playingNotes.length = 6 ∧
    mapGet exStateSixVoices.playingNotes "B3" = none ∧
    ((startNote exStateSixVoices "B3" 100).result = false ∧
     (∀ a ∈ (startNote exStateSixVoices "B3" 100).acts,
       ∀ n, a ≠ Action.emitNoteStart n) ∧
     (startNote exStateSixVoices "B3" 100).state.playingNotes =
       exStateSixVoices.playingNotes ∧
     getPlayingNotes (startNote exStateSixVoices "B3" 100).state =
       getPlayingNotes exStateSixVoices) :=
  ⟨rfl, rfl, startNote_at_cap_rejects exStateSixVoices "B3" 100 rfl rfl⟩

/-! ## Claim C7: unsupported noteId -/

/-- Claim C7: for a noteId outside the supported 37-element set, with the
service initialized, `startNote` returns false, emits exactly one `error`
event of kind `AUDIO_PLAYBACK_FAILED` (the spec's PlaybackFailed), and
leaves the state (in particular the playing-notes map) unchanged. -/
theorem startNote_unsupported_fails (s : AudioState) (noteId : String)
    (velocity : ℚ) (c : ContextState)
    (hinit : s.isInit = true) (hctx : s.audioContext = some c)
    (hunsup : isSupportedNote noteId = false) :
    (startNote s noteId velocity).result = false ∧
    (startNote s noteId velocity).acts =
      [Action.emitError ErrorType.AUDIO_PLAYBACK_FAILED] ∧
    (startNote s noteId velocity).state = s := by
  unfold startNote
  simp [hinit, hctx, hunsup]

/-- Witness for `startNote_unsupported_fails` at an out-of-range noteId. -/
theorem startNote_unsupported_fails_witness :
    initialAudioState.isInit = true ∧
    initialAudioState.audioContext = some ContextState.running ∧
    isSupportedNote "H9" = false ∧
    ((startNote initialAudioState "H9" 100).result = false ∧
     (startNote initialAudioState "H9" 100).acts =
       [Action.emitError ErrorType.AUDIO_PLAYBACK_FAILED] ∧
     (startNote initialAudioState "H9" 100).state = initialAudioState) :=
  ⟨rfl, rfl, by decide,
   startNote_unsupported_fails initialAudioState "H9" 100 .running rfl rfl
     (by decide)⟩

/-! ## Claim C3: startNote when the service is not ready -/

/-- Claim C3 counterexample: when the service is not initialized,
`startNote` returns false but emits an `error` event — it is not silent, so
the claim "emits no event of any kind" fails at this input. -/
theorem startNote_uninit_emits_event :
    (startNote exStateUninit "C4" 100).result = false ∧
    (startNote exStateUninit "C4" 100).acts =
      [Action.emitError ErrorType.AUDIO_PLAYBACK_FAILED] ∧
    (startNote exStateUninit "C4" 100).acts ≠ [] := by
  refine ⟨rfl, rfl, by decide⟩

/-- Claim C3 amended: if the service is not initialized or has no audio
context, `startNote` returns false, leaves the state unchanged, and emits
exactly one `error` event (`AUDIO_PLAYBACK_FAILED`); only when the service
is initialized but its context is closed (here for a supported note under
the cap) is the failure silent (false, no event, state unchanged). -/
theorem startNote_not_ready_amended (s : AudioState) (noteId : String)
    (velocity : ℚ)
    (hsup : isSupportedNote noteId = true)
    (hcap : s.playingNotes.length < maxConcurrentNotes)
    (hdown : s.isInit = false ∨ s.audioContext = none ∨
      s.audioContext = some ContextState.closed) :
    (startNote s noteId velocity).result = false ∧
    (startNote s noteId velocity).state = s ∧
    ((s.isInit = false ∨ s.audioContext = none) →
      (startNote s noteId velocity).acts =
        [Action.emitError ErrorType.AUDIO_PLAYBACK_FAILED]) ∧
    (s.isInit = true → s.audioContext = some ContextState.closed →
      (startNote s noteId velocity).acts = []) := by
  have hnotle : ¬ maxConcurrentNotes ≤ s.playingNotes.length :=
    Nat.not_le.mpr hcap
  rcases hdown with h | h | h
  · unfold startNote
    simp [h]
  · unfold startNote
    simp [h]
  · by_cases hi : s.isInit = true
    · unfold startNote
      simp [hi, h, hsup, hnotle]
    · have hi' : s.isInit = false := by
        cases hb : s.isInit
        · rfl
        · exact absurd hb hi
      unfold startNote
      simp [hi', h]

/-- Witness for `startNote_not_ready_amended` at the uninitialized state. -/
theorem startNote_not_ready_amended_witness :
    isSupportedNote "C4" = true ∧
    exStateUninit.playingNotes.length < maxConcurrentNotes ∧
    exStateUninit.isInit = false ∧
    ((startNote exStateUninit "C4" 100).result = false ∧
     (startNote exStateUninit "C4" 100).state = exStateUninit ∧
     ((exStateUninit.isInit = false ∨ exStateUninit.audioContext = none) →
       (startNote exStateUninit "C4" 100).acts =
         [Action.emitError ErrorType.AUDIO_PLAYBACK_FAILED]) ∧
     (exStateUninit.isInit = true →
       exStateUninit.audioContext = some ContextState.closed →
       (startNote exStateUninit "C4" 100).acts = [])) :=
  ⟨by decide, by decide, rfl,
   startNote_not_ready_amended exStateUninit "C4" 100 (by decide) (by decide)
     (Or.inl rfl)⟩

/-! ## Claim C2: calling stopNote twice in succession -/

/-- Claim C2 counterexample: for a live voice, the first `stopNote` returns
true, but the second call in succession returns false — not true as the
claim states — because the first call already deleted the map entry, so the
second call takes the note-not-playing path. -/
theorem stopNote_twice_counterexample :
    (stopNote exStateOneVoice "C4" StopErrMode.ok).result = true ∧
    (stopNote (stopNote exStateOneVoice "C4" StopErrMode.ok).state "C4"
      StopErrMode.ok).result = false := by
  exact ⟨rfl, rfl⟩

/-- Claim C2 amended: for a noteId with a live (playing) voice, the first
`stopNote` returns true and emits exactly one `noteEnd`; the second call in
succession returns false (not true) and emits no event at all — in
particular no duplicate `noteEnd`. -/
theorem stopNote_twice_amended (s : AudioState) (noteId : String)
    (pn : PlayingNote) (c : ContextState)
    (hctx : s.audioContext = some c)
    (hlive : mapGet s.playingNotes noteId = some pn)
    (hplaying : pn.state = AudioNodeState.playing) :
    (stopNote s noteId .ok).result = true ∧
    (stopNote s noteId .ok).acts = [Action.emitNoteEnd noteId] ∧
    (stopNote (stopNote s noteId .ok).state noteId .ok).result = false ∧
    (stopNote (stopNote s noteId .ok).state noteId .ok).acts = [] := by
  have hstop : ¬ pn.state = AudioNodeState.stopping := by
    rw [hplaying]
    simp
  have h1 : stopNote s noteId .ok =
      StepResult.mk true [Action.emitNoteEnd noteId]
        { s with
          playingNotes := mapDelete (mapSet s.playingNotes noteId
                            { pn with state := .stopping }) noteId } := by
    unfold stopNote
    simp only [hlive, hctx]
    rw [if_neg hstop]
  have h2 : mapGet (stopNote s noteId .ok).state.playingNotes noteId = none := by
    rw [h1]
    exact mapGet_mapDelete_self _ _
  have h3 : stopNote (stopNote s noteId .ok).state noteId .ok =
      StepResult.mk false [] (stopNote s noteId .ok).state := by
    generalize hS : (stopNote s noteId StopErrMode.ok).state = S at h2 ⊢
    unfold stopNote
    simp only [h2]
  refine ⟨by rw [h1], by rw [h1], by rw [h3], by rw [h3]⟩

/-- Witness for `stopNote_twice_amended` at a concrete one-voice state. -/
theorem stopNote_twice_amended_witness :
    exStateOneVoice.audioContext = some ContextState.running ∧
    mapGet exStateOneVoice.playingNotes "C4" = some exVoiceC4 ∧
    exVoiceC4.state = AudioNodeState.playing ∧
    ((stopNote exStateOneVoice "C4" .ok).result = true ∧
     (stopNote exStateOneVoice "C4" .ok).acts = [Action.emitNoteEnd "C4"] ∧
     (stopNote (stopNote exStateOneVoice "C4" .ok).state "C4" .ok).result =
       false ∧
     (stopNote (stopNote exStateOneVoice "C4" .ok).state "C4" .ok).acts =
       []) :=
  ⟨rfl, rfl, rfl,
   stopNote_twice_amended exStateOneVoice "C4" exVoiceC4 .running rfl rfl rfl⟩

/-! ## Claim C4: stopNote always removes the map entry -/

/-- Claim C4: for a noteId with a live voice, after `stopNote` returns the
playing-notes map contains no entry for that noteId, in every oscillator
stop scenario: clean stop, stop error swallowed by the inner handler, or an
error reaching the outer handler. -/
theorem stopNote_always_removes_entry (s : AudioState) (noteId : String)
    (pn : PlayingNote) (c : ContextState) (mode : StopErrMode)
    (hctx : s.audioContext = some c)
    (hlive : mapGet s.playingNotes noteId = some pn)
    (hplaying : pn.state = AudioNodeState.playing) :
    mapGet (stopNote s noteId mode).state.playingNotes noteId = none := by
  have hstop : ¬ pn.state = AudioNodeState.stopping := by
    rw [hplaying]
    simp
  unfold stopNote
  simp only [hlive, hctx]
  rw [if_neg hstop]
  cases mode
  · exact mapGet_mapDelete_self _ _
  · exact mapGet_mapDelete_self _ _
  · exact mapGet_mapDelete_self _ _

/-- Witness for `stopNote_always_removes_entry` in the swallowed-stop-error
scenario at a concrete one-voice state. -/
theorem stopNote_always_removes_entry_witness :
    exStateOneVoice.audioContext = some ContextState.running ∧
    mapGet exStateOneVoice.playingNotes "C4" = some exVoiceC4 ∧
    exVoiceC4.state = AudioNodeState.playing ∧
    mapGet (stopNote exStateOneVoice "C4"
      StopErrMode.innerStopError).state.playingNotes "C4" = none :=
  ⟨rfl, rfl, rfl,
   stopNote_always_removes_entry exStateOneVoice "C4" exVoiceC4 .running
     .innerStopError rfl rfl rfl⟩

/-! ## Claim C5: the watchdog staleness test (code bug) -/

/-- Claim C5 exhibits a code bug: the staleness test at AudioService.ts
line 527 computes `Date.now() - startTime * 1000 > 10000`, mixing epoch
milliseconds (`Date.now()`) with milliseconds since context creation
(`audioContext.currentTime * 1000`).  Here a voice whose wall-clock age is
1000 ms — far below the 10 s threshold, so by the claim (and the code's own
comment) it must survive — is nevertheless warned about and removed by a
qualifying cleanup tick. -/
theorem cleanup_reaps_young_voice :
    wallClockAgeMs exStaleBugState 1760000002000
        { noteId := "C4", voiceId := 0, startTime := 1,
          state := .playing } = 1000 ∧
    (1000 : ℚ) < staleThresholdMs ∧
    (performPeriodicCleanup exStaleBugState 1760000002000).1 =
      [Action.warnStaleNote "C4"] ∧
    (performPeriodicCleanup exStaleBugState 1760000002000).2.playingNotes =
      [] := by
  refine ⟨by norm_num [wallClockAgeMs, exStaleBugState], by norm_num
    [staleThresholdMs], ?_, ?_⟩
  · norm_num [performPeriodicCleanup, exStaleBugState, isStaleNote,
      staleThresholdMs, cleanupGateMs, List.filter_cons]
  · norm_num [performPeriodicCleanup, exStaleBugState, isStaleNote,
      staleThresholdMs, cleanupGateMs, List.filter_cons]

/-! ## Claim C8: restarting an already-sounding note -/

theorem any_key_false_of_mapGet_none (m : List (String × PlayingNote))
    (k : String) (h : mapGet m k = none) :
    (m.any (fun e => e.1 == k)) = false := by
  induction m with
  | nil => rfl
  | cons e rest ih =>
    by_cases hk : k = e.1
    · have hb : (k == e.1) = true := beq_iff_eq.mpr hk
      simp [mapGet, List.lookup, hb] at h
    · have hb : (k == e.1) = false := beq_eq_false_iff_ne.mpr hk
      have hb2 : (e.1 == k) = false := beq_eq_false_iff_ne.mpr (Ne.symm hk)
      simp only [mapGet, List.lookup, hb] at h
      simp [List.any_cons, hb2, ih h]

theorem mapSet_of_absent (m : List (String × PlayingNote)) (k : String)
    (v : PlayingNote) (h : mapGet m k = none) :
    mapSet m k v = m ++ [(k, v)] := by
  unfold mapSet
  rw [any_key_false_of_mapGet_none m k h]
  simp

/-- Claim C8: `startNote` on a noteId that already has a live voice — with
the service initialized, the context open, the note supported, and the map
under the cap — first stops the old voice, sleeps the fixed 10 ms settle
delay, then allocates a new voice: the trace is exactly one `noteEnd`, the
delay, then one `noteStart`; afterwards the map holds exactly one entry for
that noteId, a fresh voice carrying the allocator counter `nextVoiceId`,
which differs from the old voice's id (the old voice is never reused). -/
theorem startNote_replaces_existing_voice (s : AudioState) (noteId : String)
    (velocity : ℚ) (pn : PlayingNote) (c : ContextState)
    (hinit : s.isInit = true) (hctx : s.audioContext = some c)
    (hopen : ¬ c = ContextState.closed)
    (hsup : isSupportedNote noteId = true)
    (hcap : s.playingNotes.length < maxConcurrentNotes)
    (hlive : mapGet s.playingNotes noteId = some pn)
    (hplaying : pn.state = AudioNodeState.playing)
    (hfresh : pn.voiceId < s.nextVoiceId) :
    (startNote s noteId velocity).result = true ∧
    (startNote s noteId velocity).acts =
      [Action.emitNoteEnd noteId, Action.sleepMs 10,
       Action.emitNoteStart noteId] ∧
    ((startNote s noteId velocity).state.playingNotes.filter
        (fun e => e.1 == noteId)) =
      [(noteId, PlayingNote.mk noteId s.nextVoiceId s.audioCurrentTime
        AudioNodeState.playing)] ∧
    mapGet (startNote s noteId velocity).state.playingNotes noteId =
      some (PlayingNote.mk noteId s.nextVoiceId s.audioCurrentTime
        AudioNodeState.playing) ∧
    pn.voiceId ≠ s.nextVoiceId := by
  have hstop : ¬ pn.state = AudioNodeState.stopping := by
    rw [hplaying]
    simp
  have hnotle : ¬ maxConcurrentNotes ≤ s.playingNotes.length :=
    Nat.not_le.mpr hcap
  have hpre : stopNote s noteId StopErrMode.ok =
      StepResult.mk true [Action.emitNoteEnd noteId]
        { s with playingNotes := mapDelete s.playingNotes noteId } := by
    unfold stopNote
    simp only [hlive, hctx]
    rw [if_neg hstop, mapDelete_mapSet_self]
  have hmain : startNote s noteId velocity =
      StepResult.mk true
        [Action.emitNoteEnd noteId, Action.sleepMs 10,
         Action.emitNoteStart noteId]
        { s with
          playingNotes :=
            mapDelete s.playingNotes noteId ++
              [(noteId, PlayingNote.mk noteId s.nextVoiceId
                s.audioCurrentTime AudioNodeState.playing)],
          nextVoiceId := s.nextVoiceId + 1 } := by
    unfold startNote
    simp only [hinit, hctx, hsup, hlive, hpre, Bool.not_true,
      Option.isNone_some, Bool.or_self, Bool.false_eq_true, if_false,
      Option.isSome_some, if_true, Option.some.injEq]
    rw [if_neg hnotle, if_neg hopen,
        mapSet_of_absent _ _ _ (mapGet_mapDelete_self _ _)]
    simp
  refine ⟨by rw [hmain], by rw [hmain], ?_, ?_, Nat.ne_of_lt hfresh⟩
  · rw [hmain]
    show (mapDelete s.playingNotes noteId ++ _).filter _ = _
    rw [List.filter_append, filter_key_mapDelete]
    simp
  · rw [hmain]
    show mapGet (mapDelete s.playingNotes noteId ++ _) noteId = _
    rw [mapGet_append_of_none _ _ _ (mapGet_mapDelete_self _ _)]
    simp [mapGet, List.lookup]

/-- Witness for `startNote_replaces_existing_voice` at a concrete
one-voice state. -/
theorem startNote_replaces_existing_voice_witness :
    mapGet exStateOneVoice.playingNotes "C4" = some exVoiceC4 ∧
    exVoiceC4.voiceId < exStateOneVoice.nextVoiceId ∧
    ((startNote exStateOneVoice "C4" 100).result = true ∧
     (startNote exStateOneVoice "C4" 100).acts =
       [Action.emitNoteEnd "C4", Action.sleepMs 10,
        Action.emitNoteStart "C4"] ∧
     ((startNote exStateOneVoice "C4" 100).state.playingNotes.filter
         (fun e => e.1 == "C4")) =
       [("C4", PlayingNote.mk "C4" exStateOneVoice.nextVoiceId
         exStateOneVoice.audioCurrentTime AudioNodeState.playing)] ∧
     mapGet (startNote exStateOneVoice "C4" 100).state.playingNotes "C4" =
       some (PlayingNote.mk "C4" exStateOneVoice.nextVoiceId
         exStateOneVoice.audioCurrentTime AudioNodeState.playing) ∧
     exVoiceC4.voiceId ≠ exStateOneVoice.nextVoiceId) :=
  ⟨rfl, by decide,
   startNote_replaces_existing_voice exStateOneVoice "C4" 100 exVoiceC4
     .running rfl rfl (by decide) (by decide) (by decide) rfl rfl
     (by decide)⟩

/-! ## Claim C9: per-listener fault isolation in emit -/

/-- Claim C9: `emit` produces exactly one delivery outcome per subscribed
listener, in order, and a throwing listener (a `runListenerCaught` outcome
of `false`, its exception having been caught) never prevents the remaining
listeners from being invoked; `emitToListeners` is a total function into
`List Bool`, reflecting that `emit` itself never raises. -/
theorem emit_isolates_listener_failures {α : Type}
    (ls pre post : List (α → Except String Unit))
    (l : α → Except String Unit) (x : α)
    (hsplit : ls = pre ++ l :: post) :
    (emitToListeners ls x).length = ls.length ∧
    emitToListeners ls x =
      emitToListeners pre x ++
        runListenerCaught l x :: emitToListeners post x := by
  constructor
  · clear hsplit
    induction ls with
    | nil => rfl
    | cons a rest ih => simp [emitToListeners, ih]
  · subst hsplit
    induction pre with
    | nil => rfl
    | cons a rest ih => simp [emitToListeners, ih]

/-- Witness for `emit_isolates_listener_failures`: a throwing listener
followed by a normal one; both are delivered to. -/
theorem emit_isolates_listener_failures_witness :
    ([exFailListener, exOkListener] : List (Nat → Except String Unit)) =
      [] ++ exFailListener :: [exOkListener] ∧
    ((emitToListeners [exFailListener, exOkListener] 0).length =
      ([exFailListener, exOkListener] :
        List (Nat → Except String Unit)).length ∧
     emitToListeners [exFailListener, exOkListener] 0 =
       emitToListeners ([] : List (Nat → Except String Unit)) 0 ++
         runListenerCaught exFailListener 0 ::
           emitToListeners [exOkListener] 0) :=
  ⟨rfl, emit_isolates_listener_failures [exFailListener, exOkListener] []
    [exOkListener] exFailListener 0 rfl⟩

/-! ## Claim C10: no stopping voice persists between calls -/

theorem allVoicesPlaying_delete_marked (s : AudioState) (n : String)
    (pn : PlayingNote) (h : allVoicesPlaying s) :
    ∀ e ∈ mapDelete (mapSet s.playingNotes n
      { pn with state := AudioNodeState.stopping }) n,
      e.2.state = AudioNodeState.playing := by
  intro e he
  rw [mapDelete_mapSet_self] at he
  exact h e (mem_mapDelete _ _ _ he)

theorem allVoicesPlaying_stopNote (s : AudioState) (n : String)
    (mode : StopErrMode) (h : allVoicesPlaying s) :
    allVoicesPlaying (stopNote s n mode).state := by
  unfold stopNote
  split
  · split
    · exact h
    · split
      · exact allVoicesPlaying_delete_marked s n _ h
      · exact allVoicesPlaying_delete_marked s n _ h
      · exact allVoicesPlaying_delete_marked s n _ h
  · exact h

theorem allVoicesPlaying_startNote (s : AudioState) (n : String) (v : ℚ)
    (h : allVoicesPlaying s) : allVoicesPlaying (startNote s n v).state := by
  unfold startNote
  split
  · exact h
  · split
    · exact h
    · split
      · exact h
      · split
        · exact h
        · intro e he
          rcases mem_mapSet _ _ _ _ he with he1 | he1
          · rw [he1]
          · by_cases h5 : (mapGet s.playingNotes n).isSome = true
            · rw [if_pos h5] at he1
              exact allVoicesPlaying_stopNote s n .ok h e he1
            · rw [if_neg h5] at he1
              exact h e he1

theorem allVoicesPlaying_foldl_stop (keys : List String) :
    ∀ s : AudioState, allVoicesPlaying s →
      allVoicesPlaying
        (keys.foldl (fun st n => (stopNote st n .ok).state) s) := by
  induction keys with
  | nil => intro s h; exact h
  | cons k rest ih =>
    intro s h
    exact ih _ (allVoicesPlaying_stopNote s k .ok h)

theorem allVoicesPlaying_stopAllNotes (s : AudioState)
    (h : allVoicesPlaying s) : allVoicesPlaying (stopAllNotes s) :=
  allVoicesPlaying_foldl_stop _ s h

theorem allVoicesPlaying_cleanup (s : AudioState) (now : ℚ)
    (h : allVoicesPlaying s) :
    allVoicesPlaying (performPeriodicCleanup s now).2 := by
  unfold performPeriodicCleanup
  by_cases hg : cleanupGateMs < now - s.lastCleanupTime
  · rw [if_pos hg]
    intro e he
    exact h e (List.mem_of_mem_filter he)
  · rw [if_neg hg]
    exact h

theorem allVoicesPlaying_destroy (s : AudioState) :
    allVoicesPlaying (destroyService s) := by
  intro e he
  exact absurd he (List.not_mem_nil e)

theorem allVoicesPlaying_applyOp (s : AudioState) (op : Op)
    (h : allVoicesPlaying s) : allVoicesPlaying (applyOp s op) := by
  cases op with
  | start n v => exact allVoicesPlaying_startNote s n v h
  | stop n m => exact allVoicesPlaying_stopNote s n m h
  | stopAll => exact allVoicesPlaying_stopAllNotes s h
  | cleanup now => exact allVoicesPlaying_cleanup s now h
  | destroy => exact allVoicesPlaying_destroy s

theorem allVoicesPlaying_foldl_ops (ops : List Op) :
    ∀ s : AudioState, allVoicesPlaying s →
      allVoicesPlaying (ops.foldl applyOp s) := by
  induction ops with
  | nil => intro s h; exact h
  | cons op rest ih =>
    intro s h
    exact ih _ (allVoicesPlaying_applyOp s op h)

theorem isNotePlaying_iff_mem (s : AudioState) (n : String)
    (h : allVoicesPlaying s) :
    isNotePlaying s n = true ↔ n ∈ getPlayingNotes s := by
  unfold isNotePlaying getPlayingNotes
  cases hg : mapGet s.playingNotes n with
  | none =>
    constructor
    · intro hfalse
      cases hfalse
    · intro hmem
      rcases lookup_of_contains_keys s.playingNotes n
        (List.elem_eq_true_of_mem hmem) with ⟨p, hp⟩
      rw [mapGet, hp] at hg
      cases hg
  | some pn =>
    constructor
    · intro _
      exact List.mem_map.mpr ⟨(n, pn), lookup_mem _ _ _ hg, rfl⟩
    · intro _
      have hpl := h (n, pn) (lookup_mem _ _ _ hg)
      simp only at hpl
      simp [hpl]

/-- Claim C10: in every state reachable by a sequence of operations from a
freshly initialized service (i.e. whenever no call is in flight), every
entry of the playing-notes map has state `playing` — a `stopping` voice
never persists, because `stopNote` deletes the entry in the same call that
flips the state — and consequently `isNotePlaying noteId` returns true
exactly when noteId appears in `getPlayingNotes`. -/
theorem reachable_all_playing (ops : List Op) (noteId : String) :
    allVoicesPlaying (runOps ops) ∧
    (isNotePlaying (runOps ops) noteId = true ↔
      noteId ∈ getPlayingNotes (runOps ops)) := by
  have h : allVoicesPlaying (runOps ops) :=
    allVoicesPlaying_foldl_ops ops initialAudioState
      (by intro e he; exact absurd he (List.not_mem_nil e))
  exact ⟨h, isNotePlaying_iff_mem _ _ h⟩

/-- Witness for `reachable_all_playing` on a concrete operation sequence. -/
theorem reachable_all_playing_witness :
    allVoicesPlaying (runOps [Op.start "C4" 100, Op.stop "C4" .ok]) ∧
    (isNotePlaying (runOps [Op.start "C4" 100, Op.stop "C4" .ok]) "E4" =
        true ↔
      "E4" ∈ getPlayingNotes (runOps [Op.start "C4" 100, Op.stop "C4" .ok])) :=
  reachable_all_playing [Op.start "C4" 100, Op.stop "C4" .ok] "E4"

end SimplePiano
